import Mathlib

/-!
Shallow embedding of the acquisition / retry-orchestration pipeline of
bulk-downloader-for-reddit (files `bdfr/downloader.py`, `bdfr/archiver.py`,
`bdfr/cloner.py`), together with theorems settling the specification claims.

Machine conventions used throughout:
* A remote per-item operation is abstracted by the exception class (if any)
  that reaches the driver's per-item `try`: `Outcome`.
* Python `except` clause matching is first-match over the listed clauses;
  the class hierarchy fact needed here is that
  `prawcore.exceptions.TooManyRequests` is a subclass of
  `prawcore.ResponseException`, itself a subclass of
  `prawcore.PrawcoreException`, so a `PrawcoreException` clause also
  catches a rate-limit (429) error, while `praw.exceptions.ClientException`
  and `bdfr`'s own `ArchiverError` are outside that hierarchy.
* Observable behaviour (attempts, sleeps, log-level decisions, filesystem
  writes) is recorded as explicit effect traces.
-/

/-- The classified result of one invocation of an item's remote operation,
as seen by the driver's per-item `try` statement. -/
inductive Outcome
  | success
  | rateLimited
  | prawcoreError
  | clientError
  | archiverError
deriving DecidableEq, Repr

/-- The exception classes named by `except` clauses in the three drivers. -/
inductive ExcClass
  | prawcore
  | tooManyRequests
  | client
deriving DecidableEq, Repr

/-- Which raised outcomes an `except` clause of a given class catches.
`prawcore.exceptions.TooManyRequests` subclasses `prawcore.PrawcoreException`
(via `ResponseException`), so a `PrawcoreException` clause catches a
rate-limited failure as well. `ArchiverError` is caught by none of them. -/
def ExcClass.catches : ExcClass → Outcome → Bool
  | .prawcore, .rateLimited => true
  | .prawcore, .prawcoreError => true
  | .tooManyRequests, .rateLimited => true
  | .client, .clientError => true
  | _, _ => false

/-- Python tries `except` clauses in order and runs the first whose class
matches the raised exception. -/
def firstHandler (handlers : List ExcClass) (o : Outcome) : Option ExcClass :=
  handlers.find? (fun h => h.catches o)

/-- A post as the filter code reads it: `submission.id`,
`submission.subreddit.display_name`, `submission.author` (absent for a
deleted account), `submission.score`, `submission.upvote_ratio` (modelled
as a rational), `submission.url`, and whether
`isinstance(submission, praw.models.Submission)` holds. -/
structure Submission where
  id : String
  subreddit : String
  author : Option String
  score : Int
  upvoteRatio : Rat
  url : String
  isSubmission : Bool
deriving DecidableEq, Repr

/-- The configuration fields read by the post-level filters
(`self.excluded_submission_ids` and `self.args.*`). `Option` models
Python `None`; the code guards the bounds with Python truthiness, so a
value of `0` also disables a bound. -/
structure FilterCfg where
  excludedSubmissionIds : List String
  skipSubreddit : List String
  ignoreUser : List String
  minScore : Option Int
  maxScore : Option Int
  minScoreRatio : Option Rat
  maxScoreRatio : Option Rat
deriving DecidableEq, Repr

/-- Python truthiness of an optional integer (`None` and `0` are falsy). -/
def truthyInt : Option Int → Bool
  | none => false
  | some n => n != 0

/-- Python truthiness of an optional rational (`None` and `0.0` are falsy). -/
def truthyRat : Option Rat → Bool
  | none => false
  | some q => q != 0

/-- `(submission.author and submission.author.name in self.args.ignore_user)
or (submission.author is None and "DELETED" in self.args.ignore_user)`. -/
def ignoredUserHit (cfg : FilterCfg) (author : Option String) : Bool :=
  (match author with
   | some a => a ∈ cfg.ignoreUser
   | none => false) ||
  (author == none && "DELETED" ∈ cfg.ignoreUser)

/-- The reason logged when a post-level check rejects a post. -/
inductive SkipReason
  | excluded
  | inSkipList
  | ignoredUser
  | minScore
  | maxScore
  | scoreRatio
  | notSubmission
  | urlFiltered
deriving DecidableEq, Repr

/-- The post-level `if/elif` filter chain opening
`RedditDownloader._download_submission` (downloader.py lines 65-99):
returns the reason of the first check that rejects the post, `none` if the
post is admitted. The URL check is the external `DownloadFilter.check_url`,
passed as a function. -/
def downloaderPostChecks (cfg : FilterCfg) (checkUrl : String → Bool)
    (s : Submission) : Option SkipReason :=
  if s.id ∈ cfg.excludedSubmissionIds then some .excluded
  else if s.subreddit.toLower ∈ cfg.skipSubreddit then some .inSkipList
  else if ignoredUserHit cfg s.author then some .ignoredUser
  else if truthyInt cfg.minScore && decide (s.score < cfg.minScore.getD 0) then some .minScore
  else if truthyInt cfg.maxScore && decide (cfg.maxScore.getD 0 < s.score) then some .maxScore
  else if (truthyRat cfg.minScoreRatio && decide (s.upvoteRatio < cfg.minScoreRatio.getD 0)) ||
          (truthyRat cfg.maxScoreRatio && decide (cfg.maxScoreRatio.getD 0 < s.upvoteRatio)) then
    some .scoreRatio
  else if !s.isSubmission then some .notSubmission
  else if !checkUrl s.url then some .urlFiltered
  else none

/-- The post-level checks inside `Archiver.download`'s item loop
(archiver.py lines 44-53): ignored-user first, then the exclusion list. -/
def archiverPostChecks (cfg : FilterCfg) (s : Submission) : Option SkipReason :=
  if ignoredUserHit cfg s.author then some .ignoredUser
  else if s.id ∈ cfg.excludedSubmissionIds then some .excluded
  else none

/-- A post together with the outcome of each successive invocation of its
remote operation; attempts beyond the listed ones succeed. -/
structure Item where
  sub : Submission
  ops : List Outcome
deriving DecidableEq, Repr

/-- Outcome of the n-th attempt at an item's remote operation. -/
def attemptOutcome (ops : List Outcome) (n : Nat) : Outcome :=
  ops.getD n .success

/-- Driver-level observable events: invoking the remote operation for an
item, sleeping, recording success, logging abandonment, or skipping an
item on a filter check. -/
inductive DrvEffect
  | attempt (id : String)
  | sleepSecs (n : Nat)
  | recorded (id : String)
  | abandoned (id : String)
  | skipped (id : String) (r : SkipReason)
deriving DecidableEq, Repr

/-- Configuration read by the driver loops: the filter fields plus the
archive output format (`self.args.format`). -/
structure DriverCfg where
  filter : FilterCfg
  format : String
deriving DecidableEq, Repr

/-- `self.args.format in ("json", "xml", "yaml")`: the formats
`Archiver.write_entry` dispatches on; anything else raises `ArchiverError`. -/
def formatKnown (f : String) : Bool :=
  f == "json" || f == "xml" || f == "yaml"

/-- What one execution of the `try` body of a driver's per-item loop does:
skip the item on a filter check, finish normally, or raise. -/
inductive BodyOutcome
  | skip (r : SkipReason)
  | ok
  | raised (o : Outcome)
deriving DecidableEq, Repr

/-- The `try` body of `Archiver.download`'s item loop: the ignored-user and
exclusion checks (which `break` on a hit), then `write_entry`, whose format
dispatch raises `ArchiverError` on an unknown format; remote failures of
the attempt surface as the attempt's outcome. -/
def archiverBody (cfg : DriverCfg) (it : Item) (attemptIdx : Nat) : BodyOutcome :=
  if ignoredUserHit cfg.filter it.sub.author then .skip .ignoredUser
  else if it.sub.id ∈ cfg.filter.excludedSubmissionIds then .skip .excluded
  else
    match attemptOutcome it.ops attemptIdx with
    | .success => if formatKnown cfg.format then .ok else .raised .archiverError
    | o => .raised o

/-- The `try` body of `RedditCloner.download`'s item loop:
`self._download_submission(submission)` then `self.write_entry(submission)`;
remote failures surface as the attempt's outcome, and `write_entry` raises
`ArchiverError` on an unknown format. -/
def clonerBody (cfg : DriverCfg) (it : Item) (attemptIdx : Nat) : BodyOutcome :=
  match attemptOutcome it.ops attemptIdx with
  | .success => if formatKnown cfg.format then .ok else .raised .archiverError
  | o => .raised o

/-- The `while retry < max_retries` item loop shared in shape by
`Archiver.download` (archiver.py lines 42-79) and `RedditCloner.download`
(cloner.py lines 30-64), parametrised by the driver's `except` clause
order, `max_retries`, and the `try` body.  The fuel argument is called
with `maxRetries - retry`, which makes the recursion terminate exactly
when the `while` guard fails, since each `continue` increments `retry`
by one.  Returns the effect trace, the exception propagating out of the
loop (if any), and the final value of `retry`. -/
def itemRetryLoop (handlers : List ExcClass) (maxRetries : Nat) (id : String)
    (body : Nat → BodyOutcome) :
    Nat → Nat → Nat → List DrvEffect × Option Outcome × Nat
  | 0, retry, _ => ([], none, retry)
  | fuel + 1, retry, attemptIdx =>
    if retry < maxRetries then
      match body attemptIdx with
      | .skip r => ([.skipped id r], none, retry)
      | .ok => ([.attempt id, .recorded id], none, retry)
      | .raised o =>
        match firstHandler handlers o with
        | none => ([.attempt id], some o, retry)
        | some .tooManyRequests =>
          if retry < maxRetries then
            let r := retry + 1
            let rest := itemRetryLoop handlers maxRetries id body fuel r (attemptIdx + 1)
            (.attempt id :: .sleepSecs (30 * r ^ 3) :: rest.1, rest.2.1, rest.2.2)
          else ([.attempt id, .abandoned id], none, retry)
        | some _ => ([.attempt id, .abandoned id], none, retry)
    else ([], none, retry)

/-- One item of `Archiver.download`: `retry` is reset to `0` for each item
(archiver.py line 41), `max_retries = 2`, and the `except` clauses are, in
order, `prawcore.PrawcoreException`, `prawcore.exceptions.TooManyRequests`,
`praw.exceptions.ClientException`. -/
def archiverItem (cfg : DriverCfg) (it : Item) : List DrvEffect × Option Outcome :=
  let res := itemRetryLoop [.prawcore, .tooManyRequests, .client] 2 it.sub.id
    (archiverBody cfg it) 2 0 0
  (res.1, res.2.1)

/-- One item of `RedditCloner.download`, entered with the current value of
the `retry` counter (which the cloner initialises once per generator,
cloner.py line 26, and never resets between items): `max_retries = 3` and
the `except` clauses are, in order, `TooManyRequests`,
`prawcore.PrawcoreException`, `praw.exceptions.ClientException`. -/
def clonerItem (cfg : DriverCfg) (retry : Nat) (it : Item) :
    List DrvEffect × Option Outcome × Nat :=
  itemRetryLoop [.tooManyRequests, .prawcore, .client] 3 it.sub.id
    (clonerBody cfg it) (3 - retry) retry 0

/-- One item of `RedditDownloader.download` (downloader.py lines 50-53):
a single call of `self._download_submission(submission)` guarded only by
`except prawcore.PrawcoreException`. -/
def downloaderItem (it : Item) : List DrvEffect × Option Outcome :=
  match attemptOutcome it.ops 0 with
  | .success => ([.attempt it.sub.id, .recorded it.sub.id], none)
  | o =>
    match firstHandler [.prawcore] o with
    | some _ => ([.attempt it.sub.id, .abandoned it.sub.id], none)
    | none => ([.attempt it.sub.id], some o)

/-- One event produced while iterating `for submission in generator`:
either the generator yields the next item, or advancing it raises a
`prawcore.PrawcoreException`.  Events after a `failAdvance` stand for the
items that would have been available had iteration continued; the real
iteration stops at the raise. -/
inductive GenEvent
  | yield (it : Item)
  | failAdvance
deriving DecidableEq, Repr

/-- How the inner `for submission in generator` loop exits: normally,
by the generator raising while advancing, or by an item's exception
propagating through the per-item handling. -/
inductive GenExit
  | finished
  | advanceFailed
  | itemRaised (o : Outcome)
deriving DecidableEq, Repr

/-- Iterate one generator for a driver whose per-item processing carries no
state between items (`RedditDownloader`, `Archiver`). -/
def genRunStateless (perItem : Item → List DrvEffect × Option Outcome) :
    List GenEvent → List DrvEffect × GenExit
  | [] => ([], .finished)
  | .failAdvance :: _ => ([], .advanceFailed)
  | .yield it :: rest =>
    let r := perItem it
    match r.2 with
    | some o => (r.1, .itemRaised o)
    | none =>
      let s := genRunStateless perItem rest
      (r.1 ++ s.1, s.2)

/-- Iterate one generator for `RedditCloner.download`, threading the `retry`
counter from one item to the next (the cloner initialises it once per
generator and never resets it inside the item loop). -/
def genRunCloner (cfg : DriverCfg) :
    Nat → List GenEvent → List DrvEffect × GenExit × Nat
  | retry, [] => ([], .finished, retry)
  | retry, .failAdvance :: _ => ([], .advanceFailed, retry)
  | retry, .yield it :: rest =>
    let r := clonerItem cfg retry it
    match r.2.1 with
    | some o => (r.1, .itemRaised o, r.2.2)
    | none =>
      let s := genRunCloner cfg r.2.2 rest
      (r.1 ++ s.1, s.2.1, s.2.2)

/-- The outer loop `for generator in self.reddit_lists`, shared in shape by
all three drivers: each generator is wrapped in
`try ... except prawcore.PrawcoreException`, whose handler logs and
`sleep(60)`, after which execution falls through to the next generator.
Returns the effect trace and, if an exception escaped `download()`
entirely, that exception. -/
def driverRunWith (perGen : List GenEvent → List DrvEffect × GenExit) :
    List (List GenEvent) → List DrvEffect × Option Outcome
  | [] => ([], none)
  | g :: rest =>
    let r := perGen g
    match r.2 with
    | .finished =>
      let s := driverRunWith perGen rest
      (r.1 ++ s.1, s.2)
    | .advanceFailed =>
      let s := driverRunWith perGen rest
      (r.1 ++ .sleepSecs 60 :: s.1, s.2)
    | .itemRaised o =>
      if ExcClass.catches .prawcore o then
        let s := driverRunWith perGen rest
        (r.1 ++ .sleepSecs 60 :: s.1, s.2)
      else (r.1, some o)

/-- `RedditDownloader.download` over its `reddit_lists`. -/
def downloaderRun (lists : List (List GenEvent)) : List DrvEffect × Option Outcome :=
  driverRunWith (genRunStateless downloaderItem) lists

/-- `Archiver.download` over its `reddit_lists`. -/
def archiverRun (cfg : DriverCfg) (lists : List (List GenEvent)) :
    List DrvEffect × Option Outcome :=
  driverRunWith (genRunStateless (archiverItem cfg)) lists

/-- `RedditCloner.download` over its `reddit_lists`; `retry` starts at `0`
for each generator (cloner.py line 26), and its final value is local to
the generator iteration. -/
def clonerRun (cfg : DriverCfg) (lists : List (List GenEvent)) :
    List DrvEffect × Option Outcome :=
  driverRunWith (fun g => ((genRunCloner cfg 0 g).1, (genRunCloner cfg 0 g).2.1)) lists

/-!  The acquisition engine: the per-resource loop of
`RedditDownloader._download_submission` (downloader.py lines 119-161). -/

/-- The content-hash index `self.master_hash_list`, as an
insertion-ordered association list from hex digest to destination path. -/
abbrev HashIndex := List (String × String)

/-- `resource_hash in self.master_hash_list` /
`self.master_hash_list[resource_hash]`. -/
def lookupHash (idx : HashIndex) (h : String) : Option String :=
  (List.find? (fun e => e.1 == h) idx).map (fun e => e.2)

/-- Python dict assignment `self.master_hash_list[resource_hash] = destination`:
replaces the value of an existing key in place, otherwise appends. -/
def insertHash (idx : HashIndex) (h p : String) : HashIndex :=
  if (List.find? (fun e => e.1 == h) idx).isSome then
    List.map (fun e => if e.1 == h then (h, p) else e) idx
  else idx ++ [(h, p)]

/-- The duplicate-handling configuration the resource loop reads:
`self.args.no_dupes` and `self.args.make_hard_links`. -/
structure DownloadCfg where
  noDupes : Bool
  makeHardLinks : Bool
deriving DecidableEq, Repr

/-- One `(destination, res)` pair produced by
`self.file_name_formatter.format_resource_paths`, with the environment's
answers to the questions the loop body asks about it: does the destination
already exist, does `check_resource` admit it, does `res.download` raise
`BulkDownloaderException`, the content hash `res.hash.hexdigest()`, and
does writing the bytes raise `OSError`. -/
structure ResourceItem where
  dest : String
  destExists : Bool
  passesFilter : Bool
  fetchOk : Bool
  hash : String
  writeOk : Bool
deriving DecidableEq, Repr

/-- Filesystem events of the resource loop body, in program order. -/
inductive FsEffect
  | mkdirParent (dest : String)
  | hardlink (dest src : String)
  | writeBytes (dest hash : String)
  | setMtime (dest : String)
deriving DecidableEq, Repr

/-- `continue` to the next `(destination, res)` pair, or `return` from
`_download_submission` (abandoning the remaining pairs of this post). -/
inductive Disposition
  | continueNext
  | abortPost
deriving DecidableEq, Repr

/-- Result of one iteration of the resource loop body: the updated hash
index, the filesystem effects, and whether the loop continues. -/
structure StepResult where
  index : HashIndex
  effects : List FsEffect
  disp : Disposition
deriving DecidableEq, Repr

/-- The tail of the loop body after the duplicate check: write the bytes
(`return` on `OSError`), set the file's modification time to the post's
creation time, and record the hash in `self.master_hash_list`. -/
def writeStep (idx : HashIndex) (r : ResourceItem) : StepResult :=
  if r.writeOk then
    ⟨insertHash idx r.hash r.dest,
      [.mkdirParent r.dest, .writeBytes r.dest r.hash, .setMtime r.dest],
      .continueNext⟩
  else ⟨idx, [.mkdirParent r.dest], .abortPost⟩

/-- One iteration of the loop
`for destination, res in self.file_name_formatter.format_resource_paths(...)`
(downloader.py lines 119-161): skip existing destinations and filtered
resources with `continue`; `return` on a fetch failure; then
`destination.parent.mkdir(...)`; if the hash is already in
`self.master_hash_list`, `return` in no-dupes mode, or hard-link and
`return` in hard-link mode, and otherwise fall through to the write. -/
def processResource (cfg : DownloadCfg) (idx : HashIndex) (r : ResourceItem) :
    StepResult :=
  if r.destExists then ⟨idx, [], .continueNext⟩
  else if !r.passesFilter then ⟨idx, [], .continueNext⟩
  else if !r.fetchOk then ⟨idx, [], .abortPost⟩
  else
    match lookupHash idx r.hash with
    | some existing =>
      if cfg.noDupes then ⟨idx, [.mkdirParent r.dest], .abortPost⟩
      else if cfg.makeHardLinks then
        ⟨idx, [.mkdirParent r.dest, .hardlink r.dest existing], .abortPost⟩
      else writeStep idx r
    | none => writeStep idx r

/-- The whole resource loop: runs `processResource` over the pairs in
order, stopping at the first `return`. -/
def processResources (cfg : DownloadCfg) :
    HashIndex → List ResourceItem → HashIndex × List FsEffect
  | idx, [] => (idx, [])
  | idx, r :: rest =>
    let s := processResource cfg idx r
    match s.disp with
    | .abortPost => (s.index, s.effects)
    | .continueNext =>
      let t := processResources cfg s.index rest
      (t.1, s.effects ++ t.2)

/-!  Concrete fixtures used by the closed theorems below. -/

/-- A post by a live author, passing every filter of the default config. -/
def subA : Submission :=
  ⟨"a1", "pics", some "alice", 10, 9/10, "http://example.com/a", true⟩

/-- A second, distinct post. -/
def subB : Submission :=
  ⟨"b1", "funny", some "bob", 3, 1/2, "http://example.com/b", true⟩

/-- A configuration with every post-level filter disabled. -/
def cfgNoFilters : FilterCfg := ⟨[], [], [], none, none, none, none⟩

/-- Driver configuration: no filters, `json` archive format. -/
def cfgJson : DriverCfg := ⟨cfgNoFilters, "json"⟩

/-- A resource whose fetch and write both succeed. -/
def rGood : ResourceItem := ⟨"/out/a.jpg", false, true, true, "h1", true⟩

/-- A resource whose fetch raises `BulkDownloaderException`. -/
def rBadFetch : ResourceItem := ⟨"/out/b.jpg", false, true, false, "h2", true⟩

/-- A resource whose byte write raises `OSError`. -/
def rBadWrite : ResourceItem := ⟨"/out/c.jpg", false, true, true, "h3", false⟩

/-- A hash index already holding `rGood`'s content hash. -/
def idx1 : HashIndex := [("h1", "/old/a.jpg")]

/-- C1: the claim says a driver retries an item that fails rate-limited at
most retry-ceiling times and records its success, and that after
ceiling+1 consecutive rate-limited failures it abandons the item and
continues with the next item of the sequence.  The code diverges at both
cited sites, as this evaluation shows.  First conjunct: in
`Archiver.download` a single rate-limited failure (well within any retry
budget) abandons the item after one attempt with no sleep and no retry,
because the `except prawcore.PrawcoreException` clause listed first also
matches `TooManyRequests` and so the retry branch is unreachable.  Second
conjunct: in `RedditCloner.download`, after item `a1` exhausts the retry
budget (three rate-limited failures), the trace contains no effect at all
for the next item `b1` — the counter is never reset, so the sequence does
not continue with the next item. -/
theorem rate_limited_retry_claim_fails_in_code :
    archiverRun cfgJson [[.yield ⟨subA, [.rateLimited]⟩]] =
      ([.attempt "a1", .abandoned "a1"], none) ∧
    clonerRun cfgJson
        [[.yield ⟨subA, [.rateLimited, .rateLimited, .rateLimited]⟩, .yield ⟨subB, []⟩]] =
      ([.attempt "a1", .sleepSecs 30, .attempt "a1", .sleepSecs 240,
        .attempt "a1", .sleepSecs 810], none) := by
  constructor <;> rfl

/-- C8: the claim's scenario (retry ceiling 2, outcomes rate-limited,
rate-limited, success) is checked against both cited sites.  First
conjunct: `Archiver.download`, whose `max_retries` is 2, abandons the item
after a single attempt with no delay at all — its rate-limit retry branch
is dead code, so no `30 * k^3` delays ever happen there.  Second conjunct:
`RedditCloner.download`'s loop, where the retry branch is live, does insert
exactly the delays `30 * 1^3 = 30` and `30 * 2^3 = 240` before the success
is recorded. -/
theorem cubic_backoff_schedule_in_code :
    archiverItem cfgJson ⟨subA, [.rateLimited, .rateLimited]⟩ =
      ([.attempt "a1", .abandoned "a1"], none) ∧
    clonerItem cfgJson 0 ⟨subA, [.rateLimited, .rateLimited]⟩ =
      ([.attempt "a1", .sleepSecs 30, .attempt "a1", .sleepSecs 240,
        .attempt "a1", .recorded "a1"], none, 2) := by
  constructor <;> rfl

/-- C9: the claim says every driver resets the retry counter before the
next item's first attempt.  `RedditCloner.download` does not: its
`retry = 0` is executed once per generator, outside the item loop.  First
conjunct: consuming one item that fails rate-limited three times leaves
the counter at 3 (`max_retries`).  Second conjunct: an item entered with
the counter at 3 is given no attempt at all (`while retry < max_retries`
fails immediately), instead of starting with a full retry budget. -/
theorem cloner_retry_counter_not_reset :
    (genRunCloner cfgJson 0
        [.yield ⟨subA, [.rateLimited, .rateLimited, .rateLimited]⟩]).2.2 = 3 ∧
    clonerItem cfgJson 3 ⟨subB, []⟩ = ([], none, 3) := by
  constructor <;> rfl

/-- C3: if a resource's computed hash is already a key of the hash index
when the resource is processed (and the pair reaches the duplicate check:
destination not already present, resource admitted, fetch succeeded), then
no bytes are written.  In no-duplicates mode the only filesystem effect is
the unconditional parent-directory creation — nothing is created at the
destination itself; in hard-link mode (no-dupes off, hard links on) a hard
link from the destination to the indexed path is created instead of a byte
write.  In both modes the loop returns without writing. -/
theorem duplicate_hash_writes_no_bytes (cfg : DownloadCfg) (idx : HashIndex)
    (r : ResourceItem) (p : String)
    (hdup : lookupHash idx r.hash = some p)
    (hex : r.destExists = false) (hfil : r.passesFilter = true)
    (hfet : r.fetchOk = true) :
    (cfg.noDupes = true →
      processResource cfg idx r = ⟨idx, [.mkdirParent r.dest], .abortPost⟩) ∧
    (cfg.noDupes = false → cfg.makeHardLinks = true →
      processResource cfg idx r =
        ⟨idx, [.mkdirParent r.dest, .hardlink r.dest p], .abortPost⟩) := by
  constructor
  · intro hnd
    simp [processResource, hex, hfil, hfet, hdup, hnd]
  · intro hnd hmhl
    simp [processResource, hex, hfil, hfet, hdup, hnd, hmhl]

/-- Witness for C3 at concrete inputs: skip mode on an index already
holding hash `h1`, and hard-link mode on the same index. -/
theorem duplicate_hash_writes_no_bytes_witness :
    processResource ⟨true, false⟩ idx1 rGood =
      ⟨idx1, [.mkdirParent "/out/a.jpg"], .abortPost⟩ ∧
    processResource ⟨false, true⟩ idx1 rGood =
      ⟨idx1, [.mkdirParent "/out/a.jpg", .hardlink "/out/a.jpg" "/old/a.jpg"],
        .abortPost⟩ :=
  ⟨(duplicate_hash_writes_no_bytes ⟨true, false⟩ idx1 rGood "/old/a.jpg"
      rfl rfl rfl rfl).1 rfl,
   (duplicate_hash_writes_no_bytes ⟨false, true⟩ idx1 rGood "/old/a.jpg"
      rfl rfl rfl rfl).2 rfl rfl⟩

/-- C5 counterexample: the claim says a fetch failure aborts only that
resource and processing continues with the next destination/resource pair
of the same post.  In the code the `except errors.BulkDownloaderException`
handler ends with `return`, aborting the whole post.  With the failing
resource first, the run produces no effect and no index entry at all for
the following good resource (first conjunct), although that same resource
alone would have been written (second conjunct). -/
theorem fetch_failure_aborts_whole_post :
    processResources ⟨false, false⟩ [] [rBadFetch, rGood] = ([], []) ∧
    processResources ⟨false, false⟩ [] [rGood] =
      ([("h1", "/out/a.jpg")],
        [.mkdirParent "/out/a.jpg", .writeBytes "/out/a.jpg" "h1",
          .setMtime "/out/a.jpg"]) := by
  constructor <;> rfl

/-- C5 as amended: a fetch failure, and likewise an `OSError` write
failure, abort the remaining destination/resource pairs of the post (the
method returns); only the existing-destination and resource-filter checks
`continue` with the next pair. -/
theorem fetch_or_write_failure_returns_from_post (cfg : DownloadCfg)
    (idx : HashIndex) (r : ResourceItem) (rest : List ResourceItem)
    (hex : r.destExists = false) (hfil : r.passesFilter = true) :
    (r.fetchOk = false → processResources cfg idx (r :: rest) = (idx, [])) ∧
    (r.fetchOk = true → lookupHash idx r.hash = none → r.writeOk = false →
      processResources cfg idx (r :: rest) = (idx, [.mkdirParent r.dest])) := by
  constructor
  · intro hfet
    simp [processResources, processResource, hex, hfil, hfet]
  · intro hfet hl hw
    simp [processResources, processResource, writeStep, hex, hfil, hfet, hl, hw]

/-- Witness for the amended C5 at concrete inputs: a fetch failure and a
write failure, each followed by a resource that is consequently never
processed. -/
theorem fetch_or_write_failure_returns_from_post_witness :
    processResources ⟨false, false⟩ [] [rBadFetch] = ([], []) ∧
    processResources ⟨false, false⟩ [] [rBadWrite, rBadFetch] =
      ([], [.mkdirParent "/out/c.jpg"]) :=
  ⟨(fetch_or_write_failure_returns_from_post ⟨false, false⟩ [] rBadFetch []
      rfl rfl).1 rfl,
   (fetch_or_write_failure_returns_from_post ⟨false, false⟩ [] rBadWrite
      [rBadFetch] rfl rfl).2 rfl rfl rfl⟩

/-- C10: in one iteration of the resource loop, either the hash index is
left unchanged and no bytes are written (every non-writing branch), or the
index is extended at the resource's hash with the destination just written
and the iteration's effects are exactly the byte write to that destination
followed by setting its modification time.  Moreover the two duplicate
branches (no-dupes mode or hard-link mode on a hash already in the index)
always leave the index unchanged — in particular a hard-linked destination
is never recorded in the index. -/
theorem hash_index_extended_only_after_write (cfg : DownloadCfg)
    (idx : HashIndex) (r : ResourceItem) :
    (((processResource cfg idx r).index = idx ∧
        ∀ d h, FsEffect.writeBytes d h ∉ (processResource cfg idx r).effects) ∨
      ((processResource cfg idx r).index = insertHash idx r.hash r.dest ∧
        (processResource cfg idx r).effects =
          [.mkdirParent r.dest, .writeBytes r.dest r.hash, .setMtime r.dest])) ∧
    (lookupHash idx r.hash ≠ none →
      (cfg.noDupes = true ∨ cfg.makeHardLinks = true) →
      (processResource cfg idx r).index = idx) := by
  unfold processResource writeStep
  constructor
  · split
    · exact Or.inl (by simp)
    · split
      · exact Or.inl (by simp)
      · split
        · exact Or.inl (by simp)
        · split
          · split
            · exact Or.inl (by simp)
            · split
              · exact Or.inl (by simp)
              · split
                · exact Or.inr (by simp)
                · exact Or.inl (by simp)
          · split
            · exact Or.inr (by simp)
            · exact Or.inl (by simp)
  · intro hl hmode
    split
    · rfl
    · split
      · rfl
      · split
        · rfl
        · split
          · split
            · rfl
            · split
              · rfl
              · rcases hmode with hm | hm <;> simp_all
          · simp_all

/-- Witness for C10's duplicate-branch conjunct at a concrete input: in
hard-link mode, processing a resource whose hash is already indexed leaves
the index unchanged. -/
theorem hash_index_extended_only_after_write_witness :
    (processResource ⟨false, true⟩ idx1 rGood).index = idx1 :=
  (hash_index_extended_only_after_write ⟨false, true⟩ idx1 rGood).2
    (by decide) (Or.inr rfl)

/-!  The fixed evaluation order of the post-level checks (claim C7). -/

/-- First rejecting check of an ordered list of (check fired, reason)
pairs — the short-circuiting order written in the specification. -/
def firstHit : List (Bool × SkipReason) → Option SkipReason
  | [] => none
  | p :: rest => if p.1 then some p.2 else firstHit rest

/-- The downloader's post-level checks, listed in the order the code
evaluates them, each as the Boolean the corresponding `if/elif` tests. -/
def downloaderCheckList (cfg : FilterCfg) (checkUrl : String → Bool)
    (s : Submission) : List (Bool × SkipReason) :=
  [(decide (s.id ∈ cfg.excludedSubmissionIds), .excluded),
   (decide (s.subreddit.toLower ∈ cfg.skipSubreddit), .inSkipList),
   (ignoredUserHit cfg s.author, .ignoredUser),
   (truthyInt cfg.minScore && decide (s.score < cfg.minScore.getD 0), .minScore),
   (truthyInt cfg.maxScore && decide (cfg.maxScore.getD 0 < s.score), .maxScore),
   ((truthyRat cfg.minScoreRatio && decide (s.upvoteRatio < cfg.minScoreRatio.getD 0)) ||
      (truthyRat cfg.maxScoreRatio && decide (cfg.maxScoreRatio.getD 0 < s.upvoteRatio)),
     .scoreRatio),
   (!s.isSubmission, .notSubmission),
   (!checkUrl s.url, .urlFiltered)]

/-- The archiver's post-level checks in the order the code evaluates them:
ignored-author first, exclusion-id second. -/
def archiverCheckList (cfg : FilterCfg) (s : Submission) :
    List (Bool × SkipReason) :=
  [(ignoredUserHit cfg s.author, .ignoredUser),
   (decide (s.id ∈ cfg.excludedSubmissionIds), .excluded)]

/-- C7 counterexample: the claim fixes one evaluation order for every
post, with exclusion-id membership first and ignored-author membership
third.  For a post that is both in the exclusion list and by an ignored
author, that order yields the exclusion reason — as the downloader indeed
does (third conjunct) — but the archiver checks ignored-author first and
reports that reason instead (first and second conjuncts). -/
theorem archiver_checks_author_before_exclusion :
    archiverPostChecks ⟨["a1"], [], ["alice"], none, none, none, none⟩ subA =
      some .ignoredUser ∧
    "a1" ∈ FilterCfg.excludedSubmissionIds
      ⟨["a1"], [], ["alice"], none, none, none, none⟩ ∧
    downloaderPostChecks ⟨["a1"], [], ["alice"], none, none, none, none⟩
      (fun _ => true) subA = some .excluded := by
  refine ⟨by rfl, by decide, by rfl⟩

/-- C7 as amended: each driver evaluates its post-level checks in a fixed
short-circuiting order, the first firing check giving the logged skip
reason, and no check raises (each is a total Boolean).  In the downloader
the order is exclusion-id, subreddit skip-list (on the lower-cased
subreddit name), ignored-author (with the DELETED sentinel for absent
authors), minimum score, maximum score, upvote-ratio bounds, a
submission-type check, then the URL-pattern filter.  In the archiver only
the ignored-author and exclusion-id checks run, ignored-author first. -/
theorem post_checks_run_in_fixed_order (cfg : FilterCfg)
    (checkUrl : String → Bool) (s : Submission) :
    downloaderPostChecks cfg checkUrl s =
      firstHit (downloaderCheckList cfg checkUrl s) ∧
    archiverPostChecks cfg s = firstHit (archiverCheckList cfg s) := by
  constructor
  · simp only [downloaderPostChecks, downloaderCheckList, firstHit,
      decide_eq_true_eq]
  · simp only [archiverPostChecks, archiverCheckList, firstHit,
      decide_eq_true_eq]

/-!  Behaviour of the generator loops around an advance failure (claim C4). -/

/-- Splitting a stateless generator run at a prefix that completes
normally: the remaining events are processed from where the prefix left
off. -/
theorem genRunStateless_append_of_finished
    (perItem : Item → List DrvEffect × Option Outcome) (xs ys : List GenEvent)
    (h : (genRunStateless perItem xs).2 = .finished) :
    genRunStateless perItem (xs ++ ys) =
      ((genRunStateless perItem xs).1 ++ (genRunStateless perItem ys).1,
        (genRunStateless perItem ys).2) := by
  induction xs with
  | nil => simp [genRunStateless]
  | cons e rest ih =>
    cases e with
    | failAdvance => simp [genRunStateless] at h
    | yield it =>
      simp only [genRunStateless, List.cons_append] at h ⊢
      cases hpe : (perItem it).2 with
      | some o => simp [hpe] at h
      | none =>
        simp only [hpe] at h ⊢
        simp [ih h]

/-- Splitting a cloner generator run at a prefix that completes normally:
the remaining events are processed with the retry counter the prefix left
behind. -/
theorem genRunCloner_append_of_finished (cfg : DriverCfg)
    (xs ys : List GenEvent) :
    ∀ s, (genRunCloner cfg s xs).2.1 = .finished →
      genRunCloner cfg s (xs ++ ys) =
        ((genRunCloner cfg s xs).1 ++
            (genRunCloner cfg (genRunCloner cfg s xs).2.2 ys).1,
          (genRunCloner cfg (genRunCloner cfg s xs).2.2 ys).2.1,
          (genRunCloner cfg (genRunCloner cfg s xs).2.2 ys).2.2) := by
  induction xs with
  | nil => intro s _; simp [genRunCloner]
  | cons e rest ih =>
    intro s h
    cases e with
    | failAdvance => simp [genRunCloner] at h
    | yield it =>
      simp only [genRunCloner, List.cons_append] at h ⊢
      cases hpe : (clonerItem cfg s it).2.1 with
      | some o => simp [hpe] at h
      | none =>
        simp only [hpe] at h ⊢
        simp [ih _ h]

/-- C4 counterexample: the claim says that after an advance failure the
driver resumes consuming the same sequence from the next available item.
In the code the `try` wraps the whole `for submission in generator` loop,
so the handler's `sleep(60)` is followed by moving to the next generator:
here the item `b1`, available in the same sequence right after the
failure, leaves no effect in the trace — it is never consumed. -/
theorem advance_failure_does_not_resume_sequence :
    downloaderRun [[.yield ⟨subA, []⟩, .failAdvance, .yield ⟨subB, []⟩]] =
      ([.attempt "a1", .recorded "a1", .sleepSecs 60], none) := by rfl

/-- C4 as amended: when advancing a sequence fails, the driver (downloader
and cloner alike) sleeps the fixed 60 seconds and then abandons the rest
of that sequence, continuing with the next sequence; the advance failure
itself never escapes `download()` — whatever the whole run propagates
comes only from the remaining sequences. -/
theorem advance_failure_sleeps_then_abandons_sequence (cfg : DriverCfg)
    (xs evs : List GenEvent) (rest : List (List GenEvent))
    (hd : (genRunStateless downloaderItem xs).2 = .finished)
    (hc : (genRunCloner cfg 0 xs).2.1 = .finished) :
    downloaderRun ((xs ++ .failAdvance :: evs) :: rest) =
      ((genRunStateless downloaderItem xs).1 ++
          .sleepSecs 60 :: (downloaderRun rest).1,
        (downloaderRun rest).2) ∧
    clonerRun cfg ((xs ++ .failAdvance :: evs) :: rest) =
      ((genRunCloner cfg 0 xs).1 ++ .sleepSecs 60 :: (clonerRun cfg rest).1,
        (clonerRun cfg rest).2) := by
  constructor
  · have hsplit := genRunStateless_append_of_finished downloaderItem xs
      (.failAdvance :: evs) hd
    simp only [downloaderRun, driverRunWith, hsplit]
    simp [genRunStateless]
  · have hsplit := genRunCloner_append_of_finished cfg xs
      (.failAdvance :: evs) 0 hc
    simp only [clonerRun, driverRunWith, hsplit]
    simp [genRunCloner]

/-- Witness for the amended C4: one item succeeds, then the sequence
fails to advance; both drivers sleep 60 seconds and the run ends normally. -/
theorem advance_failure_sleeps_then_abandons_sequence_witness :
    downloaderRun [[.yield ⟨subA, []⟩, .failAdvance]] =
      ([.attempt "a1", .recorded "a1", .sleepSecs 60], none) ∧
    clonerRun cfgJson [[.yield ⟨subA, []⟩, .failAdvance]] =
      ([.attempt "a1", .recorded "a1", .sleepSecs 60], none) := by
  have h := advance_failure_sleeps_then_abandons_sequence cfgJson
    [.yield ⟨subA, []⟩] [] [] rfl rfl
  exact ⟨h.1.trans rfl, h.2.trans rfl⟩

/-- C2 counterexample: the same item with the same outcome sequence (one
rate-limited failure) is given one attempt and abandoned by
`RedditDownloader.download`, but retried after a 30-second sleep and
recorded as a success by `RedditCloner.download` — the retry/backoff
decisions are not the same across the three drivers. -/
theorem drivers_differ_on_rate_limited_item :
    downloaderItem ⟨subA, [.rateLimited]⟩ =
      ([.attempt "a1", .abandoned "a1"], none) ∧
    (clonerItem cfgJson 0 ⟨subA, [.rateLimited]⟩).1 =
      [.attempt "a1", .sleepSecs 30, .attempt "a1", .recorded "a1"] := by
  constructor <;> rfl

/-- C2 as amended: the downloader and the archiver do make the same
attempt/abandon decisions — for every item the archiver's own pre-checks
admit, with a known archive format and a first outcome among success,
rate-limited and other-remote failure, the two per-item behaviours are
identical (a single attempt; abandon on any failure, because the
archiver's rate-limit retry branch is shadowed by its
`PrawcoreException` handler).  The cloner's decisions differ from theirs:
it retries a rate-limited failure. -/
theorem downloader_and_archiver_agree_cloner_differs (cfg : DriverCfg)
    (it : Item)
    (hUser : ignoredUserHit cfg.filter it.sub.author = false)
    (hExcl : it.sub.id ∉ cfg.filter.excludedSubmissionIds)
    (hFmt : formatKnown cfg.format = true)
    (hCl : attemptOutcome it.ops 0 ≠ .clientError)
    (hAe : attemptOutcome it.ops 0 ≠ .archiverError) :
    archiverItem cfg it = downloaderItem it ∧
    (clonerItem cfgJson 0 ⟨subA, [.rateLimited]⟩).1 ≠
      (downloaderItem ⟨subA, [.rateLimited]⟩).1 := by
  constructor
  · cases h0 : attemptOutcome it.ops 0 with
    | success =>
      simp [archiverItem, itemRetryLoop, archiverBody, downloaderItem,
        hUser, hExcl, hFmt, h0]
    | rateLimited =>
      simp [archiverItem, itemRetryLoop, archiverBody, downloaderItem,
        firstHandler, ExcClass.catches, hUser, hExcl, h0]
    | prawcoreError =>
      simp [archiverItem, itemRetryLoop, archiverBody, downloaderItem,
        firstHandler, ExcClass.catches, hUser, hExcl, h0]
    | clientError => exact absurd h0 hCl
    | archiverError => exact absurd h0 hAe
  · decide

/-- Witness for the amended C2: a concrete item failing with a generic
remote error is handled identically by archiver and downloader. -/
theorem downloader_and_archiver_agree_cloner_differs_witness :
    archiverItem cfgJson ⟨subB, [.prawcoreError]⟩ =
      downloaderItem ⟨subB, [.prawcoreError]⟩ ∧
    (clonerItem cfgJson 0 ⟨subA, [.rateLimited]⟩).1 ≠
      (downloaderItem ⟨subA, [.rateLimited]⟩).1 :=
  downloader_and_archiver_agree_cloner_differs cfgJson ⟨subB, [.prawcoreError]⟩
    (by decide) (by decide) (by decide) (by decide) (by decide)

/-!  Which exceptions can escape the archiver's download loop (claim C6). -/

/-- An attempt outcome drawn from an ops list not containing
`archiverError` is never `archiverError` (indices past the end default to
`success`). -/
theorem attemptOutcome_ne_archiverError (ops : List Outcome) (n : Nat)
    (h : Outcome.archiverError ∉ ops) :
    attemptOutcome ops n ≠ .archiverError := by
  induction ops generalizing n with
  | nil => cases n <;> simp [attemptOutcome, List.getD]
  | cons a rest ih =>
    cases n with
    | zero =>
      simp only [attemptOutcome, List.getD]
      intro hc
      exact h (by simp_all)
    | succ m =>
      have hrest : Outcome.archiverError ∉ rest :=
        fun hm => h (List.mem_cons_of_mem a hm)
      simpa [attemptOutcome, List.getD] using ih m hrest
 
/-- If every exception the body can raise is matched by some handler of
the list, nothing propagates out of the item retry loop. -/
theorem itemRetryLoop_no_propagation (handlers : List ExcClass) (maxR : Nat)
    (id : String) (body : Nat → BodyOutcome)
    (h : ∀ n o, body n = .raised o → (firstHandler handlers o).isSome) :
    ∀ fuel retry aIdx,
      (itemRetryLoop handlers maxR id body fuel retry aIdx).2.1 = none := by
  intro fuel
  induction fuel with
  | zero => intro retry aIdx; simp [itemRetryLoop]
  | succ f ih =>
    intro retry aIdx
    simp only [itemRetryLoop]
    split
    · cases hb : body aIdx with
      | skip r => simp [hb]
      | ok => simp [hb]
      | raised o =>
        have hs := h aIdx o hb
        simp only [hb]
        cases hfh : firstHandler handlers o with
        | none => simp [hfh] at hs
        | some hc =>
          cases hc with
          | prawcore => simp [hfh]
          | client => simp [hfh]
          | tooManyRequests =>
            simp only [hfh]
            exact ih (retry + 1) (aIdx + 1)
    · rfl

/-- With a known archive format and no `ArchiverError` among an item's
outcomes, nothing propagates out of the archiver's per-item handling:
its handler list covers every other raised class. -/
theorem archiverItem_no_propagation (cfg : DriverCfg) (it : Item)
    (hFmt : formatKnown cfg.format = true)
    (hOps : Outcome.archiverError ∉ it.ops) :
    (archiverItem cfg it).2 = none := by
  unfold archiverItem
  apply itemRetryLoop_no_propagation
  intro n o hb
  unfold archiverBody at hb
  split_ifs at hb
  rcases ha : attemptOutcome it.ops n with _ | _ | _ | _ | _ <;> rw [ha] at hb
  · simp at hb
  · cases hb; decide
  · cases hb; decide
  · cases hb; decide
  · exact absurd ha (attemptOutcome_ne_archiverError it.ops n hOps)

/-- A stateless generator run over events whose items never propagate
cannot exit with `itemRaised`. -/
theorem genRunStateless_no_itemRaised
    (perItem : Item → List DrvEffect × Option Outcome) (evs : List GenEvent)
    (h : ∀ it, GenEvent.yield it ∈ evs → (perItem it).2 = none) :
    ∀ o, (genRunStateless perItem evs).2 ≠ .itemRaised o := by
  induction evs with
  | nil => simp [genRunStateless]
  | cons e rest ih =>
    cases e with
    | failAdvance => simp [genRunStateless]
    | yield it =>
      have hit := h it (by simp)
      simp only [genRunStateless, hit]
      exact ih (fun it' hm => h it' (by simp [hm]))

/-- If no generator of the run exits with `itemRaised`, nothing escapes
the driver's `download()`. -/
theorem driverRunWith_no_propagation
    (perGen : List GenEvent → List DrvEffect × GenExit)
    (lists : List (List GenEvent))
    (h : ∀ g ∈ lists, ∀ o, (perGen g).2 ≠ .itemRaised o) :
    (driverRunWith perGen lists).2 = none := by
  induction lists with
  | nil => rfl
  | cons g rest ih =>
    simp only [driverRunWith]
    cases hg : (perGen g).2 with
    | finished => simpa using ih (fun g' hm o => h g' (by simp [hm]) o)
    | advanceFailed => simpa using ih (fun g' hm o => h g' (by simp [hm]) o)
    | itemRaised o => exact absurd hg (h g (by simp) o)

/-- An event whose item can never raise `ArchiverError`. -/
def genEventClean : GenEvent → Bool
  | .yield it => it.ops.all (fun o => o != .archiverError)
  | .failAdvance => true

/-- C6 counterexample: the claim says no error raised while processing an
item — including the unknown archive-format configuration error —
propagates out of the driver's download loop.  With format `"foo"`,
`write_entry` raises `ArchiverError`, which none of the loop's `except`
clauses (`PrawcoreException`, `TooManyRequests`, `ClientException`)
matches, nor the sequence-level `except PrawcoreException`: the error
escapes `Archiver.download` and terminates the run. -/
theorem unknown_format_error_escapes_download :
    archiverRun ⟨cfgNoFilters, "foo"⟩ [[.yield ⟨subA, []⟩]] =
      ([.attempt "a1"], some .archiverError) := by rfl

/-- C6 as amended: errors of the classes the archiver's handlers cover
(rate-limited, other remote-protocol, client) always resolve to skipping,
delaying or abandoning the item and continuing — with a known format and
no `ArchiverError` outcome anywhere, nothing escapes `Archiver.download`
(first conjunct).  The exception is the unknown-archive-format
configuration error, which propagates out of the loop and terminates the
run (second conjunct). -/
theorem archiver_handled_errors_never_escape (cfg : DriverCfg)
    (lists : List (List GenEvent))
    (hFmt : formatKnown cfg.format = true)
    (hClean : lists.all (fun g => g.all genEventClean) = true) :
    (archiverRun cfg lists).2 = none ∧
    archiverRun ⟨cfgNoFilters, "bar"⟩ [[.yield ⟨subB, []⟩]] =
      ([.attempt "b1"], some .archiverError) := by
  refine ⟨?_, by rfl⟩
  unfold archiverRun
  apply driverRunWith_no_propagation
  intro g hg o
  apply genRunStateless_no_itemRaised
  intro it hit
  apply archiverItem_no_propagation cfg it hFmt
  simp only [List.all_eq_true] at hClean
  have hev := hClean g hg (GenEvent.yield it) hit
  simp only [genEventClean, List.all_eq_true, bne_iff_ne] at hev
  intro hm
  exact hev .archiverError hm rfl

/-- Witness for the amended C6: a run whose item fails in all three
handled classes over its attempts escapes nothing. -/
theorem archiver_handled_errors_never_escape_witness :
    (archiverRun cfgJson
        [[.yield ⟨subA, [.rateLimited, .clientError, .prawcoreError]⟩]]).2 =
      none ∧
    archiverRun ⟨cfgNoFilters, "bar"⟩ [[.yield ⟨subB, []⟩]] =
      ([.attempt "b1"], some .archiverError) :=
  archiver_handled_errors_never_escape cfgJson
    [[.yield ⟨subA, [.rateLimited, .clientError, .prawcoreError]⟩]]
    (by decide) (by decide)
